import Mathlib

/-!
# Microsoft Surface ACPI notify driver (`drivers/platform/x86/surface_acpi.c`)

A shallow embedding of the driver's attach / remove / notify callbacks and of the
request it submits to the notify object's `_DSM` method.

The driver talks to three external subsystems: the ACPI interpreter
(`acpi_has_method`, `acpi_evaluate_object`, `acpi_evaluate_integer`,
`acpi_get_handle`, `acpi_walk_namespace`), the slab allocator (`kzalloc`) and
procfs (`proc_create_data`, `remove_proc_entry`).  Every call that crosses this
boundary is appended, together with the answer it received, to a trace
(`List Event`).  The answers themselves come from an environment `Env` whose
oracles may depend on the whole trace so far, so an environment stands for an
arbitrary (deterministic) firmware and allocator behaviour.

`printk` output (`pr_info`, `pr_err`, `pr_warn`) has no influence on state or on
returned values and is not modelled.  A `NULL` dereference is modelled by `none`
in the `Option` monad.
-/

namespace SurfaceAcpi

/-! ## ACPICA status codes and constants of the driver -/

/-- An ACPICA status word. -/
abbrev acpi_status := Nat

/-- An ACPI namespace handle (an untyped pointer); `0` is `NULL`. -/
abbrev acpi_handle := Nat

/-- Modelled from the spec: the success code of ACPICA (`acexcep.h` is not part of
the sources); its value is the one of the ACPICA header. -/
def AE_OK : acpi_status := 0x0000

/-- Modelled from the spec: the generic "evaluation failed" code (`acexcep.h`). -/
def AE_ERROR : acpi_status := 0x0001

/-- Modelled from the spec: the out-of-memory code (`acexcep.h`). -/
def AE_NO_MEMORY : acpi_status := 0x0004

/-- Modelled from the spec: the "method not found" code (`acexcep.h`). -/
def AE_NOT_FOUND : acpi_status := 0x0005

/-- Modelled from the spec: `ACPI_FAILURE(a)` is `(a)`, i.e. any non-zero status. -/
def ACPI_FAILURE (a : acpi_status) : Bool := a != 0

/-- Modelled from the spec: `ACPI_SUCCESS(a)` is `(!(a))`. -/
def ACPI_SUCCESS (a : acpi_status) : Bool := a == 0

def SURFACE_ACPI_VERSION : String := "0.1"
def SURFACE_GEN_VERSION : Nat := 0x08

def SUR_METHOD_DSM : String := "_DSM"
def SUR_METHOD_REG : String := "_REG"
def SUR_METHOD_STA : String := "_STA"
def SUR_METHOD_INI : String := "_INI"
def SUR_METHOD_CRS : String := "_CRS"

def SUR_QUERY_DEVICE : Nat := 0x00
def SUR_SET_DVER : Nat := 0x01
def SUR_GET_BOARD_REVID : Nat := 0x02
def SUR_BAT1_STATE_CHANGE : Nat := 0x03
def SUR_BAT1_INFO_CHANGE : Nat := 0x04
def SUR_PSU_STATE_CHANGE : Nat := 0x05
def SUR_PSU_INFO_CHANGE : Nat := 0x06
def SUR_BAT2_STATE_CHANGE : Nat := 0x07
def SUR_BAT2_INFO_CHANGE : Nat := 0x08
def SUR_SENSOR_TRIP_POINT : Nat := 0x09

def REG_AVAILABLE : Nat := 0x01
def REG_INIT : Nat := 0x09

/-- The text of the initialiser of `static char SURFACE_EVENT_GUID[]`. -/
def SURFACE_EVENT_GUID_text : String := "93b666c5-70c6-469f-a215-3d487c91ab3c"

/-- The `char` array `SURFACE_EVENT_GUID[]`: the characters of the string literal
followed by the terminating NUL that the initialiser adds. -/
def SURFACE_EVENT_GUID : List Nat :=
  SURFACE_EVENT_GUID_text.toList.map Char.toNat ++ [0]

def SUR_SAN_RQST : String := "\\_SB._SAN.RQST"
def SUR_SAN_RQSX : String := "\\_SB._SAN.RQSX"

/-! ## Data model -/

/-- The part of `union acpi_object` the driver fills in.  The `type` tag is the
constructor (`ACPI_TYPE_INTEGER`, `ACPI_TYPE_BUFFER`, `ACPI_TYPE_PACKAGE`).  A
buffer carries its declared `length` and the bytes `pointer` points to; a package
carries its `count` and the raw value stored in its `elements` pointer. -/
inductive acpi_object where
  | integer (value : Nat)
  | buffer (length : Nat) (pointer : List Nat)
  | package (count : Nat) (elements : Nat)
  deriving DecidableEq, Repr

/-- The part of `struct acpi_device` the driver reads. -/
structure acpi_device where
  handle : acpi_handle
  deriving DecidableEq, Repr

/-- The registry `struct surface_acpi_dev`. -/
structure surface_acpi_dev where
  handle : acpi_handle
  rqst_handle : acpi_handle
  rqsx_handle : acpi_handle
  san_dev : Option acpi_device
  ssh_dev : Option acpi_device
  bat1_dev : Option acpi_device
  bat2_dev : Option acpi_device
  psu_dev : Option acpi_device
  bat1_attached : Bool
  bat2_attached : Bool
  psu_registered : Bool
  deriving DecidableEq, Repr

/-- The object `kzalloc` hands out: every field zero. -/
def surface_acpi_dev.zeroed : surface_acpi_dev :=
  { handle := 0, rqst_handle := 0, rqsx_handle := 0,
    san_dev := none, ssh_dev := none, bat1_dev := none, bat2_dev := none,
    psu_dev := none,
    bat1_attached := false, bat2_attached := false, psu_registered := false }

/-- One call across the driver's boundary, with the answer it received. -/
inductive Event where
  | has_method (handle : acpi_handle) (name : String) (found : Bool)
  | evaluate_object (handle : acpi_handle) (name : String)
      (params : Option (List acpi_object)) (status : acpi_status)
  | evaluate_integer (handle : acpi_handle) (name : String) (status : acpi_status)
  | get_handle (pathname : String) (status : acpi_status) (handle : acpi_handle)
  | walk_namespace (handle : acpi_handle) (status : acpi_status)
  | kzalloc (ok : Bool)
  | proc_create_data (name : String) (ok : Bool)
  | remove_proc_entry (name : String)
  deriving DecidableEq, Repr

/-- The environment: what the ACPI interpreter, the allocator and procfs answer,
as a function of everything that happened before (the trace) and of the request. -/
structure Env where
  has_method : List Event → acpi_handle → String → Bool
  evaluate_object : List Event → acpi_handle → String → Option (List acpi_object) → acpi_status
  evaluate_integer : List Event → acpi_handle → String → acpi_status
  get_handle : List Event → String → acpi_status × acpi_handle
  walk_namespace : List Event → acpi_handle → acpi_status
  kzalloc : List Event → Bool
  proc_alloc : List Event → String → Bool

/-- The driver's global state: the pointer `surface_acpi`, the names published
under `surface_proc_dir`, and the trace of boundary calls. -/
structure Kernel where
  surface_acpi : Option surface_acpi_dev
  proc : List String
  trace : List Event

/-! ## Boundary calls -/

def acpi_has_method (env : Env) (tr : List Event) (h : acpi_handle) (name : String) :
    Bool × List Event :=
  let found := env.has_method tr h name
  (found, tr ++ [Event.has_method h name found])

def acpi_evaluate_object (env : Env) (tr : List Event) (h : acpi_handle) (name : String)
    (params : Option (List acpi_object)) : acpi_status × List Event :=
  let status := env.evaluate_object tr h name params
  (status, tr ++ [Event.evaluate_object h name params status])

def acpi_evaluate_integer (env : Env) (tr : List Event) (h : acpi_handle) (name : String) :
    acpi_status × List Event :=
  let status := env.evaluate_integer tr h name
  (status, tr ++ [Event.evaluate_integer h name status])

/-- The call `acpi_get_handle(NULL, pathname, &out)`: the status, the new value of
`out` (written on success only) and the trace. -/
def acpi_get_handle (env : Env) (tr : List Event) (pathname : String) (out : acpi_handle) :
    acpi_status × acpi_handle × List Event :=
  let r := env.get_handle tr pathname
  (r.1, (if ACPI_SUCCESS r.1 then r.2 else out), tr ++ [Event.get_handle pathname r.1 r.2])

def acpi_walk_namespace (env : Env) (tr : List Event) (h : acpi_handle) :
    acpi_status × List Event :=
  let status := env.walk_namespace tr h
  (status, tr ++ [Event.walk_namespace h status])

def kzalloc (env : Env) (tr : List Event) : Option surface_acpi_dev × List Event :=
  let ok := env.kzalloc tr
  ((if ok then some surface_acpi_dev.zeroed else none), tr ++ [Event.kzalloc ok])

/-- Modelled from the spec: procfs (not part of the sources) as a directory keyed
by name.  `proc_create_data` publishes `name` unless the name is already published
or procfs cannot allocate the entry. -/
def proc_create_data (env : Env) (name : String) (p : List String × List Event) :
    List String × List Event :=
  let ok := decide (name ∉ p.1) && env.proc_alloc p.2 name
  ((if ok then p.1 ++ [name] else p.1), p.2 ++ [Event.proc_create_data name ok])

/-- Modelled from the spec: `remove_proc_entry` unpublishes `name`; removing a name
that is not published changes nothing and reports no error. -/
def remove_proc_entry (name : String) (p : List String × List Event) :
    List String × List Event :=
  (p.1.filter (fun n => n != name), p.2 ++ [Event.remove_proc_entry name])

/-! ## The driver -/

def surface_acpi_check_status (env : Env) (dev : acpi_device) (tr : List Event) :
    acpi_status × List Event :=
  let (found, tr) := acpi_has_method env tr dev.handle SUR_METHOD_STA
  if found then
    let (status, tr) := acpi_evaluate_integer env tr dev.handle SUR_METHOD_STA
    if ACPI_FAILURE status then (AE_ERROR, tr) else (AE_OK, tr)
  else (AE_NOT_FOUND, tr)

/-- The array `in_objs[2]` built by `surface_acpi_san_reg`. -/
def san_reg_in_objs : List acpi_object :=
  [acpi_object.integer REG_INIT, acpi_object.integer REG_AVAILABLE]

def surface_acpi_san_reg (env : Env) (sa : surface_acpi_dev) (tr : List Event) :
    acpi_status × List Event :=
  let (found, tr) := acpi_has_method env tr sa.handle SUR_METHOD_REG
  if found then
    let (status, tr) := acpi_evaluate_object env tr sa.handle SUR_METHOD_REG (some san_reg_in_objs)
    if ACPI_FAILURE status then (AE_ERROR, tr) else (AE_OK, tr)
  else (AE_NOT_FOUND, tr)

/-- The array `in_objs[4]` built by `surface_acpi_event_handler(event)`. -/
def event_handler_in_objs (event : Nat) : List acpi_object :=
  [acpi_object.buffer SURFACE_EVENT_GUID.length SURFACE_EVENT_GUID,
   acpi_object.integer SUR_QUERY_DEVICE,
   acpi_object.integer event,
   acpi_object.package 0 SURFACE_GEN_VERSION]

/-- The function `surface_acpi_event_handler(u32 event)` (`send_event`).  The `u32`
argument is widened without loss to the 64-bit `integer.value`; `sa` is the object
`surface_acpi` points to. -/
def surface_acpi_event_handler (env : Env) (sa : surface_acpi_dev) (tr : List Event)
    (event : Nat) : acpi_status × List Event :=
  let (found, tr) := acpi_has_method env tr sa.handle SUR_METHOD_DSM
  if found then
    let (status, tr) :=
      acpi_evaluate_object env tr sa.handle SUR_METHOD_DSM (some (event_handler_in_objs event))
    if ACPI_FAILURE status then (AE_ERROR, tr) else (AE_OK, tr)
  else (AE_NOT_FOUND, tr)

/-- The function `surface_acpi_san_load`: the five bring-up calls, in source order;
the registry with the flags it sets, and the trace. -/
def surface_acpi_san_load (env : Env) (sa : surface_acpi_dev) (tr : List Event) :
    surface_acpi_dev × List Event :=
  let (_, tr) := surface_acpi_event_handler env sa tr SUR_SET_DVER
  let (_, tr) := surface_acpi_event_handler env sa tr SUR_SENSOR_TRIP_POINT
  let (ret, tr) := surface_acpi_event_handler env sa tr SUR_BAT1_INFO_CHANGE
  let sa := if ACPI_FAILURE ret then sa else { sa with bat1_attached := true }
  let (ret, tr) := surface_acpi_event_handler env sa tr SUR_BAT2_INFO_CHANGE
  let sa := if ACPI_FAILURE ret then sa else { sa with bat2_attached := true }
  let (ret, tr) := surface_acpi_event_handler env sa tr SUR_PSU_INFO_CHANGE
  let sa := if ACPI_FAILURE ret then sa else { sa with psu_registered := true }
  (sa, tr)

/-- The function `surface_acpi_ssh_initialize`; `none` is the dereference of a
`NULL` `surface_acpi->ssh_dev`. -/
def surface_acpi_ssh_initialize (env : Env) (sa : surface_acpi_dev) (tr : List Event) :
    Option (acpi_status × List Event) := do
  let ssh_dev ← sa.ssh_dev
  let (found, tr) := acpi_has_method env tr ssh_dev.handle SUR_METHOD_INI
  if found then
    let (status, tr) := acpi_evaluate_object env tr ssh_dev.handle SUR_METHOD_INI none
    if ACPI_FAILURE status then pure (AE_ERROR, tr) else pure (AE_OK, tr)
  else pure (AE_NOT_FOUND, tr)

/-- The text `seq_printf` renders for a one-bit flag with `%d`. -/
def flag_text (b : Bool) : String := if b then "1" else "0"

/-- The read handler of `BAT1`; `none` is the dereference of a `NULL` `surface_acpi`. -/
def bat1_proc_show (k : Kernel) : Option String := do
  let sa ← k.surface_acpi
  pure ("attached: " ++ flag_text sa.bat1_attached ++ "\n")

/-- The read handler of `BAT2`. -/
def bat2_proc_show (k : Kernel) : Option String := do
  let sa ← k.surface_acpi
  pure ("attached: " ++ flag_text sa.bat2_attached ++ "\n")

/-- The read handler of `ADP1`. -/
def psu_proc_show (k : Kernel) : Option String := do
  let sa ← k.surface_acpi
  pure ("registered: " ++ flag_text sa.psu_registered ++ "\n")

/-- The read handler of `version`; it does not touch the registry. -/
def version_proc_show (_k : Kernel) : Option String :=
  some ("driver: " ++ SURFACE_ACPI_VERSION ++ "\n")

/-- The function `create_surface_proc_entries`.  The `data` argument of each entry
(a flag value, or the version string) is never read back by the handlers and is
not kept. -/
def create_surface_proc_entries (env : Env) (p : List String × List Event) :
    List String × List Event :=
  let p := proc_create_data env "BAT1" p
  let p := proc_create_data env "BAT2" p
  let p := proc_create_data env "ADP1" p
  proc_create_data env "version" p

def remove_surface_proc_entries (p : List String × List Event) : List String × List Event :=
  let p := remove_proc_entry "BAT1" p
  let p := remove_proc_entry "BAT2" p
  let p := remove_proc_entry "ADP1" p
  remove_proc_entry "version" p

/-- The callback `surface_acpi_notify`: it only prints the event code. -/
def surface_acpi_notify (k : Kernel) (_dev : acpi_device) (_event : Nat) : Kernel := k

def surface_acpi_register_rqst_handler (env : Env) (sa : surface_acpi_dev) (tr : List Event) :
    surface_acpi_dev × List Event :=
  let (_, h, tr) := acpi_get_handle env tr SUR_SAN_RQST sa.rqst_handle
  ({ sa with rqst_handle := h }, tr)

def surface_acpi_register_rqsx_handler (env : Env) (sa : surface_acpi_dev) (tr : List Event) :
    surface_acpi_dev × List Event :=
  let (_, h, tr) := acpi_get_handle env tr SUR_SAN_RQSX sa.rqsx_handle
  ({ sa with rqsx_handle := h }, tr)

/-- The function `surface_acpi_walk_namespace`; the callback only prints each
method it is shown. -/
def surface_acpi_walk_namespace (env : Env) (dev : acpi_device) (tr : List Event) :
    List Event :=
  (acpi_walk_namespace env tr dev.handle).2

/-- The callback `surface_acpi_add`: the returned code and the new global state;
`none` is a `NULL` dereference. -/
def surface_acpi_add (env : Env) (k : Kernel) (dev : acpi_device) :
    Option (acpi_status × Kernel) := do
  let (reg, tr) :=
    match k.surface_acpi with
    | some sa => (some sa, k.trace)
    | none => kzalloc env k.trace
  match reg with
  | none => pure (AE_NO_MEMORY, { k with trace := tr })
  | some sa =>
    let (found, tr) := acpi_has_method env tr dev.handle SUR_METHOD_DSM
    if found then
      let sa := { sa with san_dev := some dev }
      let sa := { sa with handle := dev.handle }
      let san_dev ← sa.san_dev
      let tr := surface_acpi_walk_namespace env san_dev tr
      let san_dev ← sa.san_dev
      let (_, tr) := surface_acpi_check_status env san_dev tr
      let (sa, tr) := surface_acpi_register_rqst_handler env sa tr
      let (sa, tr) := surface_acpi_register_rqsx_handler env sa tr
      let (_, tr) := surface_acpi_san_reg env sa tr
      let (sa, tr) := surface_acpi_san_load env sa tr
      let (proc, tr) := create_surface_proc_entries env (k.proc, tr)
      pure (AE_OK, { surface_acpi := some sa, proc := proc, trace := tr })
    else
      let sa := { sa with ssh_dev := some dev }
      let ssh_dev ← sa.ssh_dev
      let tr := surface_acpi_walk_namespace env ssh_dev tr
      let ssh_dev ← sa.ssh_dev
      let (_, tr) := surface_acpi_check_status env ssh_dev tr
      let (_, tr) ← surface_acpi_ssh_initialize env sa tr
      pure (AE_OK, { surface_acpi := some sa, proc := k.proc, trace := tr })

/-- The callback `surface_acpi_remove`. -/
def surface_acpi_remove (k : Kernel) (_dev : acpi_device) : acpi_status × Kernel :=
  let (proc, tr) := remove_surface_proc_entries (k.proc, k.trace)
  (AE_OK, { k with proc := proc, trace := tr })

/-! ## Callback sequences -/

/-- A callback the ACPI bus may invoke on the registered driver. -/
inductive Callback where
  | add (dev : acpi_device)
  | remove (dev : acpi_device)
  | notify (dev : acpi_device) (event : Nat)
  deriving DecidableEq, Repr

/-- The state after one callback (its return code is dropped). -/
def step (env : Env) (k : Kernel) : Callback → Option Kernel
  | Callback.add dev => (surface_acpi_add env k dev).map Prod.snd
  | Callback.remove dev => some (surface_acpi_remove k dev).2
  | Callback.notify dev event => some (surface_acpi_notify k dev event)

/-- The state after a sequence of callbacks. -/
def run (env : Env) (k : Kernel) : List Callback → Option Kernel
  | [] => some k
  | cb :: cbs => (step env k cb).bind (fun k1 => run env k1 cbs)

/-- The state once `surface_acpi_init` has succeeded: `surface_acpi` is `NULL`
(a zero-initialised static) and `surface_proc_dir` is a fresh, empty directory. -/
def Kernel.init : Kernel := { surface_acpi := none, proc := [], trace := [] }

/-! ## Trace shapes used in the statements -/

/-- The boundary calls of one `register_availability` (`surface_acpi_san_reg`) on
the handle `h`: the probe of `_REG` and, when the probe found the method, its
evaluation with the integers `0x09` and `0x01`, answered by `status`. -/
def reg_footprint (h : acpi_handle) (found : Bool) (status : acpi_status) : List Event :=
  if found then
    [Event.has_method h "_REG" true,
     Event.evaluate_object h "_REG"
       (some [acpi_object.integer 0x09, acpi_object.integer 0x01]) status]
  else [Event.has_method h "_REG" false]

/-- The boundary calls of one `send_event(event)` (`surface_acpi_event_handler`) on
the handle `h`: the probe of `_DSM` and, when the probe found the method, its
evaluation with the request built for `event`, answered by `status`. -/
def send_event_footprint (h : acpi_handle) (event : Nat) (found : Bool)
    (status : acpi_status) : List Event :=
  if found then
    [Event.has_method h "_DSM" true,
     Event.evaluate_object h "_DSM" (some (event_handler_in_objs event)) status]
  else [Event.has_method h "_DSM" false]

/-- The code `send_event` returns for a probe answer and an evaluation status. -/
def send_event_code (found : Bool) (status : acpi_status) : acpi_status :=
  if found then (if status = 0 then AE_OK else AE_ERROR) else AE_NOT_FOUND

/-- Whether a `send_event` call succeeded: the method was found and evaluated
with status `AE_OK`. -/
def send_event_ok (found : Bool) (status : acpi_status) : Bool :=
  found && status == 0

/-- Whether a boundary call concerns the registration method `_REG` or the
dispatch method `_DSM` (a probe or an evaluation of either). -/
def Event.is_protocol : Event → Bool
  | Event.has_method _ name _ => name == "_REG" || name == "_DSM"
  | Event.evaluate_object _ name _ _ => name == "_REG" || name == "_DSM"
  | Event.evaluate_integer _ name _ => name == "_REG" || name == "_DSM"
  | _ => false

/-- Whether a boundary call is a method evaluation. -/
def Event.is_evaluation : Event → Bool
  | Event.evaluate_object _ _ _ _ => true
  | Event.evaluate_integer _ _ _ => true
  | _ => false

/-- Whether a boundary call is a `proc_create_data`. -/
def Event.is_proc_create : Event → Bool
  | Event.proc_create_data _ _ => true
  | _ => false

/-- Whether a boundary call is a `kzalloc`. -/
def Event.is_kzalloc : Event → Bool
  | Event.kzalloc _ => true
  | _ => false

/-- The three flags of a registry, in the order battery 1, battery 2, power source. -/
def surface_acpi_dev.flags (sa : surface_acpi_dev) : Bool × Bool × Bool :=
  (sa.bat1_attached, sa.bat2_attached, sa.psu_registered)

/-- The registry an attach works on: the existing one, or a zeroed one when none
exists yet. -/
def Kernel.registry_or_new (k : Kernel) : surface_acpi_dev :=
  k.surface_acpi.getD surface_acpi_dev.zeroed

/-- The allocator call an attach makes: none when the registry exists, else one
`kzalloc` with the environment's answer. -/
def alloc_events (env : Env) (k : Kernel) : List Event :=
  match k.surface_acpi with
  | some _ => []
  | none => [Event.kzalloc (env.kzalloc k.trace)]

/-- Whether an attach has a registry to work on: it exists already, or the
allocation succeeds. -/
def registry_available (env : Env) (k : Kernel) : Prop :=
  k.surface_acpi ≠ none ∨ env.kzalloc k.trace = true

/-- The answer of the role probe `acpi_has_method(dev->handle, "_DSM")` an attach
makes once it has a registry. -/
def role_probe (env : Env) (k : Kernel) (dev : acpi_device) : Bool :=
  env.has_method (k.trace ++ alloc_events env k) dev.handle SUR_METHOD_DSM

/-- Every flag that is set in `a` is set in `b`. -/
def flags_kept (a b : surface_acpi_dev) : Prop :=
  (a.bat1_attached = true → b.bat1_attached = true) ∧
  (a.bat2_attached = true → b.bat2_attached = true) ∧
  (a.psu_registered = true → b.psu_registered = true)

/-- Whether one of the three endpoints that read the registry is published. -/
def registry_endpoint_published (k : Kernel) : Prop :=
  "BAT1" ∈ k.proc ∨ "BAT2" ∈ k.proc ∨ "ADP1" ∈ k.proc

/-! ## Concrete environments and devices used as examples -/

/-- A firmware in which handle `1` is the notify device (it exposes `_DSM`), every
other handle lacks `_DSM` but has the other methods, and every call succeeds. -/
def env_ok : Env :=
  { has_method := fun _ h name => if name = "_DSM" then h == 1 else true
    evaluate_object := fun _ _ _ _ => AE_OK
    evaluate_integer := fun _ _ _ => AE_OK
    get_handle := fun _ pathname => (AE_OK, if pathname = SUR_SAN_RQST then 10 else 11)
    walk_namespace := fun _ _ => AE_OK
    kzalloc := fun _ => true
    proc_alloc := fun _ _ => true }

/-- As `env_ok`, but the firmware fails the `_DSM` request for `BAT2_INFO_CHANGE`. -/
def env_bat2_fails : Env :=
  { env_ok with
    evaluate_object := fun _ _ _ params =>
      if params = some (event_handler_in_objs SUR_BAT2_INFO_CHANGE) then AE_ERROR else AE_OK }

/-- As `env_ok`, but every allocation fails. -/
def env_no_memory : Env :=
  { env_ok with kzalloc := fun _ => false }

/-- The notify device (`MSHW0091`) of the example firmware. -/
def san_device : acpi_device := { handle := 1 }

/-- The embedded-controller device (`MSHW0084`) of the example firmware. -/
def ssh_device : acpi_device := { handle := 2 }

/-- A registry whose notify handle is `h`, all else zero. -/
def registry_with_handle (h : acpi_handle) : surface_acpi_dev :=
  { surface_acpi_dev.zeroed with handle := h }

/-! ## Lemmas about the building blocks -/

theorem send_event_code_failure (found : Bool) (status : acpi_status) :
    ACPI_FAILURE (send_event_code found status) = !send_event_ok found status := by
  cases found <;> by_cases h : status = 0 <;>
    simp [send_event_code, send_event_ok, ACPI_FAILURE, AE_OK, AE_ERROR, AE_NOT_FOUND, h]

theorem surface_acpi_event_handler_shape (env : Env) (sa : surface_acpi_dev)
    (tr : List Event) (event : Nat) :
    ∃ found status,
      found = env.has_method tr sa.handle SUR_METHOD_DSM ∧
      surface_acpi_event_handler env sa tr event =
        (send_event_code found status,
         tr ++ send_event_footprint sa.handle event found status) := by
  refine ⟨env.has_method tr sa.handle SUR_METHOD_DSM,
    env.evaluate_object (tr ++ [Event.has_method sa.handle SUR_METHOD_DSM true]) sa.handle
      SUR_METHOD_DSM (some (event_handler_in_objs event)), rfl, ?_⟩
  unfold surface_acpi_event_handler acpi_has_method acpi_evaluate_object
  cases hf : env.has_method tr sa.handle SUR_METHOD_DSM
  · simp [send_event_code, send_event_footprint, SUR_METHOD_DSM]
  · by_cases hs : env.evaluate_object (tr ++ [Event.has_method sa.handle SUR_METHOD_DSM true])
        sa.handle SUR_METHOD_DSM (some (event_handler_in_objs event)) = 0
    · simp [send_event_code, send_event_footprint, SUR_METHOD_DSM, ACPI_FAILURE] at hs ⊢
      simp [hs]
    · simp [send_event_code, send_event_footprint, SUR_METHOD_DSM, ACPI_FAILURE] at hs ⊢
      simp [hs]

theorem flag_update (c : Bool) (sa : surface_acpi_dev) :
    ((if (!c) = true then sa else { sa with bat1_attached := true }) =
        { sa with bat1_attached := sa.bat1_attached || c }) ∧
    ((if (!c) = true then sa else { sa with bat2_attached := true }) =
        { sa with bat2_attached := sa.bat2_attached || c }) ∧
    ((if (!c) = true then sa else { sa with psu_registered := true }) =
        { sa with psu_registered := sa.psu_registered || c }) := by
  cases c <;> simp

theorem surface_acpi_san_load_shape (env : Env) (sa : surface_acpi_dev) (tr : List Event) :
    ∃ f1 s1 f2 s2 f3 s3 f4 s4 f5 s5,
      surface_acpi_san_load env sa tr =
        ({ sa with
            bat1_attached := sa.bat1_attached || send_event_ok f3 s3,
            bat2_attached := sa.bat2_attached || send_event_ok f4 s4,
            psu_registered := sa.psu_registered || send_event_ok f5 s5 },
         tr ++ send_event_footprint sa.handle 0x01 f1 s1
            ++ send_event_footprint sa.handle 0x09 f2 s2
            ++ send_event_footprint sa.handle 0x04 f3 s3
            ++ send_event_footprint sa.handle 0x08 f4 s4
            ++ send_event_footprint sa.handle 0x06 f5 s5) := by
  unfold surface_acpi_san_load
  obtain ⟨f1, s1, -, h1⟩ := surface_acpi_event_handler_shape env sa tr SUR_SET_DVER
  rw [h1]; dsimp only
  obtain ⟨f2, s2, -, h2⟩ := surface_acpi_event_handler_shape env sa
    (tr ++ send_event_footprint sa.handle SUR_SET_DVER f1 s1) SUR_SENSOR_TRIP_POINT
  rw [h2]; dsimp only
  obtain ⟨f3, s3, -, h3⟩ := surface_acpi_event_handler_shape env sa
    (tr ++ send_event_footprint sa.handle SUR_SET_DVER f1 s1
      ++ send_event_footprint sa.handle SUR_SENSOR_TRIP_POINT f2 s2) SUR_BAT1_INFO_CHANGE
  rw [h3]; dsimp only
  rw [send_event_code_failure, (flag_update _ sa).1]
  obtain ⟨f4, s4, -, h4⟩ := surface_acpi_event_handler_shape env
    { sa with bat1_attached := sa.bat1_attached || send_event_ok f3 s3 }
    (tr ++ send_event_footprint sa.handle SUR_SET_DVER f1 s1
      ++ send_event_footprint sa.handle SUR_SENSOR_TRIP_POINT f2 s2
      ++ send_event_footprint sa.handle SUR_BAT1_INFO_CHANGE f3 s3) SUR_BAT2_INFO_CHANGE
  rw [h4]; dsimp only
  rw [send_event_code_failure, (flag_update _ _).2.1]
  obtain ⟨f5, s5, -, h5⟩ := surface_acpi_event_handler_shape env
    { sa with bat1_attached := sa.bat1_attached || send_event_ok f3 s3,
              bat2_attached := sa.bat2_attached || send_event_ok f4 s4 }
    (tr ++ send_event_footprint sa.handle SUR_SET_DVER f1 s1
      ++ send_event_footprint sa.handle SUR_SENSOR_TRIP_POINT f2 s2
      ++ send_event_footprint sa.handle SUR_BAT1_INFO_CHANGE f3 s3
      ++ send_event_footprint sa.handle SUR_BAT2_INFO_CHANGE f4 s4) SUR_PSU_INFO_CHANGE
  rw [h5]; dsimp only
  rw [send_event_code_failure, (flag_update _ _).2.2]
  exact ⟨f1, s1, f2, s2, f3, s3, f4, s4, f5, s5, rfl⟩

theorem surface_acpi_san_reg_shape (env : Env) (sa : surface_acpi_dev) (tr : List Event) :
    ∃ found status,
      surface_acpi_san_reg env sa tr =
        (send_event_code found status, tr ++ reg_footprint sa.handle found status) := by
  refine ⟨env.has_method tr sa.handle SUR_METHOD_REG,
    env.evaluate_object (tr ++ [Event.has_method sa.handle SUR_METHOD_REG true]) sa.handle
      SUR_METHOD_REG (some san_reg_in_objs), ?_⟩
  unfold surface_acpi_san_reg acpi_has_method acpi_evaluate_object
  cases hf : env.has_method tr sa.handle SUR_METHOD_REG
  · simp [send_event_code, reg_footprint, SUR_METHOD_REG]
  · by_cases hs : env.evaluate_object (tr ++ [Event.has_method sa.handle SUR_METHOD_REG true])
        sa.handle SUR_METHOD_REG (some san_reg_in_objs) = 0
    · simp [send_event_code, reg_footprint, SUR_METHOD_REG, ACPI_FAILURE, san_reg_in_objs,
        REG_INIT, REG_AVAILABLE] at hs ⊢
      simp [hs]
    · simp [send_event_code, reg_footprint, SUR_METHOD_REG, ACPI_FAILURE, san_reg_in_objs,
        REG_INIT, REG_AVAILABLE] at hs ⊢
      simp [hs]

/-- The events of a `_STA` status check: a probe of `_STA` and at most one
`acpi_evaluate_integer` of it. -/
theorem surface_acpi_check_status_shape (env : Env) (dev : acpi_device) (tr : List Event) :
    ∃ evs, (surface_acpi_check_status env dev tr).2 = tr ++ evs ∧
      ∀ e ∈ evs, (∃ f, e = Event.has_method dev.handle "_STA" f) ∨
        (∃ st, e = Event.evaluate_integer dev.handle "_STA" st) := by
  unfold surface_acpi_check_status acpi_has_method acpi_evaluate_integer
  simp only [SUR_METHOD_STA]
  cases hf : env.has_method tr dev.handle "_STA"
  · exact ⟨[Event.has_method dev.handle "_STA" false], by simp, by simp⟩
  · refine ⟨[Event.has_method dev.handle "_STA" true, Event.evaluate_integer dev.handle "_STA"
      (env.evaluate_integer (tr ++ [Event.has_method dev.handle "_STA" true]) dev.handle "_STA")],
      ?_, by simp⟩
    by_cases hs : ACPI_FAILURE (env.evaluate_integer
      (tr ++ [Event.has_method dev.handle "_STA" true]) dev.handle "_STA") = true <;> simp [hs]

theorem create_surface_proc_entries_shape (env : Env) (proc : List String) (tr : List Event) :
    ∃ o1 o2 o3 o4,
      (create_surface_proc_entries env (proc, tr)).2 =
        tr ++ [Event.proc_create_data "BAT1" o1, Event.proc_create_data "BAT2" o2,
               Event.proc_create_data "ADP1" o3, Event.proc_create_data "version" o4] := by
  simp [create_surface_proc_entries, proc_create_data]

theorem surface_acpi_ssh_initialize_shape (env : Env) (sa : surface_acpi_dev)
    (dev : acpi_device) (tr : List Event) (h : sa.ssh_dev = some dev) :
    ∃ found status code,
      found = env.has_method tr dev.handle SUR_METHOD_INI ∧
      surface_acpi_ssh_initialize env sa tr =
        some (code, tr ++ (if found then
          [Event.has_method dev.handle "_INI" true,
           Event.evaluate_object dev.handle "_INI" none status]
          else [Event.has_method dev.handle "_INI" false])) := by
  unfold surface_acpi_ssh_initialize acpi_has_method acpi_evaluate_object
  simp only [SUR_METHOD_INI]
  cases hf : env.has_method tr dev.handle "_INI"
  · exact ⟨false, 0, AE_NOT_FOUND, rfl, by simp [h, hf]⟩
  · by_cases hs : ACPI_FAILURE (env.evaluate_object
        (tr ++ [Event.has_method dev.handle "_INI" true]) dev.handle "_INI" none) = true
    · exact ⟨true, _, AE_ERROR, rfl, by simp [h, hf, hs]; rfl⟩
    · exact ⟨true, _, AE_OK, rfl, by simp [h, hf, hs]; rfl⟩

theorem surface_acpi_add_no_memory (env : Env) (k : Kernel) (dev : acpi_device)
    (h1 : k.surface_acpi = none) (h2 : env.kzalloc k.trace = false) :
    surface_acpi_add env k dev =
      some (AE_NO_MEMORY, { k with trace := k.trace ++ [Event.kzalloc false] }) := by
  simp [surface_acpi_add, kzalloc, h1, h2]

/-- The state a device attach starts its role branch from. -/
theorem surface_acpi_add_unfold (env : Env) (k : Kernel) (dev : acpi_device)
    (hav : registry_available env k) :
    surface_acpi_add env k dev =
      (let sa := k.registry_or_new
       let tr := k.trace ++ alloc_events env k
       let (found, tr) := acpi_has_method env tr dev.handle SUR_METHOD_DSM
       if found then
         let sa := { sa with san_dev := some dev, handle := dev.handle }
         let tr := surface_acpi_walk_namespace env dev tr
         let (_, tr) := surface_acpi_check_status env dev tr
         let (sa, tr) := surface_acpi_register_rqst_handler env sa tr
         let (sa, tr) := surface_acpi_register_rqsx_handler env sa tr
         let (_, tr) := surface_acpi_san_reg env sa tr
         let (sa, tr) := surface_acpi_san_load env sa tr
         let (proc, tr) := create_surface_proc_entries env (k.proc, tr)
         some (AE_OK, { surface_acpi := some sa, proc := proc, trace := tr })
       else
         let sa := { sa with ssh_dev := some dev }
         let tr := surface_acpi_walk_namespace env dev tr
         let (_, tr) := surface_acpi_check_status env dev tr
         ( surface_acpi_ssh_initialize env sa tr).bind
           (fun r => some (AE_OK, { surface_acpi := some sa, proc := k.proc, trace := r.2 }))) := by
  unfold surface_acpi_add registry_available at *
  cases hk : k.surface_acpi with
  | some sa =>
    simp only [Kernel.registry_or_new, alloc_events, hk, Option.getD_some, List.append_nil]
    rfl
  | none =>
    have hz : env.kzalloc k.trace = true := by
      rcases hav with h | h
      · exact absurd hk h
      · exact h
    simp only [Kernel.registry_or_new, alloc_events, hk, Option.getD_none, kzalloc, hz]
    rfl

theorem surface_acpi_walk_namespace_shape (env : Env) (dev : acpi_device) (tr : List Event) :
    ∃ st, surface_acpi_walk_namespace env dev tr = tr ++ [Event.walk_namespace dev.handle st] :=
  ⟨_, rfl⟩

theorem surface_acpi_register_rqst_handler_shape (env : Env) (sa : surface_acpi_dev)
    (tr : List Event) :
    ∃ h st h1, surface_acpi_register_rqst_handler env sa tr =
      ({ sa with rqst_handle := h }, tr ++ [Event.get_handle "\\_SB._SAN.RQST" st h1]) :=
  ⟨_, _, _, rfl⟩

theorem surface_acpi_register_rqsx_handler_shape (env : Env) (sa : surface_acpi_dev)
    (tr : List Event) :
    ∃ h st h1, surface_acpi_register_rqsx_handler env sa tr =
      ({ sa with rqsx_handle := h }, tr ++ [Event.get_handle "\\_SB._SAN.RQSX" st h1]) :=
  ⟨_, _, _, rfl⟩

theorem surface_acpi_check_status_pair (env : Env) (dev : acpi_device) (tr : List Event) :
    ∃ code evs, surface_acpi_check_status env dev tr = (code, tr ++ evs) ∧
      ∀ e ∈ evs, (∃ f, e = Event.has_method dev.handle "_STA" f) ∨
        (∃ st, e = Event.evaluate_integer dev.handle "_STA" st) := by
  obtain ⟨evs, h1, h2⟩ := surface_acpi_check_status_shape env dev tr
  exact ⟨(surface_acpi_check_status env dev tr).1, evs, Prod.ext rfl h1, h2⟩

theorem create_surface_proc_entries_pair (env : Env) (proc : List String) (tr : List Event) :
    ∃ proc1 o1 o2 o3 o4,
      create_surface_proc_entries env (proc, tr) =
        (proc1, tr ++ [Event.proc_create_data "BAT1" o1, Event.proc_create_data "BAT2" o2,
               Event.proc_create_data "ADP1" o3, Event.proc_create_data "version" o4]) := by
  obtain ⟨o1, o2, o3, o4, h⟩ := create_surface_proc_entries_shape env proc tr
  exact ⟨_, o1, o2, o3, o4, Prod.ext rfl h⟩

/-- The shape of a notify-device attach: the registry it leaves and the boundary
calls it makes. -/
theorem surface_acpi_add_san_shape (env : Env) (k : Kernel) (dev : acpi_device)
    (hav : registry_available env k) (hrole : role_probe env k dev = true) :
    ∃ mid h1 h2 f0 s0 f1 s1 f2 s2 f3 s3 f4 s4 f5 s5 o1 o2 o3 o4 proc1,
      surface_acpi_add env k dev =
        some (AE_OK,
          { surface_acpi := some
              { k.registry_or_new with
                san_dev := some dev, handle := dev.handle,
                rqst_handle := h1, rqsx_handle := h2,
                bat1_attached := k.registry_or_new.bat1_attached || send_event_ok f3 s3,
                bat2_attached := k.registry_or_new.bat2_attached || send_event_ok f4 s4,
                psu_registered := k.registry_or_new.psu_registered || send_event_ok f5 s5 },
            proc := proc1,
            trace := k.trace ++ alloc_events env k
              ++ [Event.has_method dev.handle "_DSM" true] ++ mid
              ++ reg_footprint dev.handle f0 s0
              ++ send_event_footprint dev.handle 0x01 f1 s1
              ++ send_event_footprint dev.handle 0x09 f2 s2
              ++ send_event_footprint dev.handle 0x04 f3 s3
              ++ send_event_footprint dev.handle 0x08 f4 s4
              ++ send_event_footprint dev.handle 0x06 f5 s5
              ++ [Event.proc_create_data "BAT1" o1, Event.proc_create_data "BAT2" o2,
                  Event.proc_create_data "ADP1" o3, Event.proc_create_data "version" o4] }) ∧
      (∀ e ∈ mid, e.is_protocol = false ∧ e.is_proc_create = false ∧ e.is_kzalloc = false) := by
  rw [surface_acpi_add_unfold env k dev hav]
  unfold role_probe at hrole
  simp only [acpi_has_method, hrole, if_true]
  simp only [SUR_METHOD_DSM]
  generalize k.trace ++ alloc_events env k ++ [Event.has_method dev.handle "_DSM" true] = T0
  obtain ⟨w, hw⟩ := surface_acpi_walk_namespace_shape env dev T0
  rw [hw]
  obtain ⟨c, sta, hsta, hsta2⟩ := surface_acpi_check_status_pair env dev
    (T0 ++ [Event.walk_namespace dev.handle w])
  rw [hsta]; dsimp only
  obtain ⟨h1, g1, g1h, hq1⟩ := surface_acpi_register_rqst_handler_shape env
    { k.registry_or_new with san_dev := some dev, handle := dev.handle }
    (T0 ++ [Event.walk_namespace dev.handle w] ++ sta)
  rw [hq1]; dsimp only
  obtain ⟨h2, g2, g2h, hq2⟩ := surface_acpi_register_rqsx_handler_shape env
    { k.registry_or_new with san_dev := some dev, handle := dev.handle, rqst_handle := h1 }
    (T0 ++ [Event.walk_namespace dev.handle w] ++ sta ++ [Event.get_handle "\\_SB._SAN.RQST" g1 g1h])
  rw [hq2]; dsimp only
  generalize hT1 : T0 ++ [Event.walk_namespace dev.handle w] ++ sta
    ++ [Event.get_handle "\\_SB._SAN.RQST" g1 g1h]
    ++ [Event.get_handle "\\_SB._SAN.RQSX" g2 g2h] = T1
  obtain ⟨f0, s0, hreg⟩ := surface_acpi_san_reg_shape env
    { k.registry_or_new with
        san_dev := some dev, handle := dev.handle, rqst_handle := h1, rqsx_handle := h2 } T1
  rw [hreg]; dsimp only
  obtain ⟨f1, s1, f2, s2, f3, s3, f4, s4, f5, s5, hload⟩ := surface_acpi_san_load_shape env
    { k.registry_or_new with
        san_dev := some dev, handle := dev.handle, rqst_handle := h1, rqsx_handle := h2 } (T1 ++ reg_footprint dev.handle f0 s0)
  rw [hload]; dsimp only
  obtain ⟨proc1, o1, o2, o3, o4, hproc⟩ := create_surface_proc_entries_pair env k.proc
    (T1 ++ reg_footprint dev.handle f0 s0
      ++ send_event_footprint dev.handle 0x01 f1 s1
      ++ send_event_footprint dev.handle 0x09 f2 s2
      ++ send_event_footprint dev.handle 0x04 f3 s3
      ++ send_event_footprint dev.handle 0x08 f4 s4
      ++ send_event_footprint dev.handle 0x06 f5 s5)
  rw [hproc]; dsimp only
  refine ⟨[Event.walk_namespace dev.handle w] ++ sta
    ++ [Event.get_handle "\\_SB._SAN.RQST" g1 g1h, Event.get_handle "\\_SB._SAN.RQSX" g2 g2h],
    h1, h2, f0, s0, f1, s1, f2, s2, f3, s3, f4, s4, f5, s5, o1, o2, o3, o4, proc1, ?_, ?_⟩
  · subst hT1
    simp only [List.append_assoc, List.singleton_append, List.cons_append, List.nil_append]
  · intro e he
    simp only [List.mem_append, List.mem_singleton, List.mem_cons, List.not_mem_nil, or_false] at he
    rcases he with (rfl | he) | rfl | rfl
    · simp [Event.is_protocol, Event.is_proc_create, Event.is_kzalloc]
    · rcases hsta2 e he with ⟨f, rfl⟩ | ⟨st, rfl⟩ <;>
        simp [Event.is_protocol, Event.is_proc_create, Event.is_kzalloc]
    · simp [Event.is_protocol, Event.is_proc_create, Event.is_kzalloc]
    · simp [Event.is_protocol, Event.is_proc_create, Event.is_kzalloc]

/-- The boundary calls of one `surface_acpi_ssh_initialize` on the handle `h`. -/
theorem ini_events_cases (h : acpi_handle) (found : Bool) (status : acpi_status) (e : Event)
    (he : e ∈ (if found then
          [Event.has_method h "_INI" true, Event.evaluate_object h "_INI" none status]
          else [Event.has_method h "_INI" false])) :
    e = Event.has_method h "_INI" found ∨
      (found = true ∧ e = Event.evaluate_object h "_INI" none status) := by
  cases found <;> simp at he ⊢ <;> tauto

/-- The shape of an embedded-controller attach: the registry it leaves and the
boundary calls it makes. -/
theorem surface_acpi_add_ssh_shape (env : Env) (k : Kernel) (dev : acpi_device)
    (hav : registry_available env k) (hrole : role_probe env k dev = false) :
    ∃ (w : acpi_status) (sta : List Event) (found : Bool) (status : acpi_status),
      surface_acpi_add env k dev =
        some (AE_OK,
          { surface_acpi := some { k.registry_or_new with ssh_dev := some dev },
            proc := k.proc,
            trace := k.trace ++ alloc_events env k
              ++ [Event.has_method dev.handle "_DSM" false]
              ++ [Event.walk_namespace dev.handle w] ++ sta
              ++ (if found then
                    [Event.has_method dev.handle "_INI" true,
                     Event.evaluate_object dev.handle "_INI" none status]
                  else [Event.has_method dev.handle "_INI" false]) }) ∧
      (∀ e ∈ sta, (∃ f, e = Event.has_method dev.handle "_STA" f) ∨
        (∃ st, e = Event.evaluate_integer dev.handle "_STA" st)) := by
  rw [surface_acpi_add_unfold env k dev hav]
  unfold role_probe at hrole
  simp only [acpi_has_method, hrole]
  simp only [SUR_METHOD_DSM]
  generalize k.trace ++ alloc_events env k ++ [Event.has_method dev.handle "_DSM" false] = T0
  obtain ⟨w, hw⟩ := surface_acpi_walk_namespace_shape env dev T0
  rw [hw]
  obtain ⟨c, sta, hsta, hsta2⟩ := surface_acpi_check_status_pair env dev
    (T0 ++ [Event.walk_namespace dev.handle w])
  rw [hsta]; dsimp only
  obtain ⟨found, status, code, -, hini⟩ := surface_acpi_ssh_initialize_shape env
    { k.registry_or_new with ssh_dev := some dev } dev
    (T0 ++ [Event.walk_namespace dev.handle w] ++ sta) rfl
  rw [hini]
  exact ⟨w, sta, found, status, rfl, hsta2⟩

/-! ## The request `send_event` submits -/

/-- C1: when the notify object does not expose `_DSM`, `send_event`
(`surface_acpi_event_handler`) returns `AE_NOT_FOUND`, a failure distinct from the
evaluation failure `AE_ERROR`, for every event code (in particular for each of
`0x00..0x09`), and the only boundary call it makes is the probe of `_DSM`: no
method is evaluated. -/
theorem send_event_without_dsm_not_found (env : Env) (sa : surface_acpi_dev)
    (tr : List Event) (event : Nat)
    (h : env.has_method tr sa.handle "_DSM" = false) :
    surface_acpi_event_handler env sa tr event =
        (AE_NOT_FOUND, tr ++ [Event.has_method sa.handle "_DSM" false]) ∧
      ACPI_FAILURE AE_NOT_FOUND = true ∧ AE_NOT_FOUND ≠ AE_ERROR ∧
      ∀ e ∈ [Event.has_method sa.handle "_DSM" false], e.is_evaluation = false := by
  refine ⟨?_, by decide, by decide, by simp [Event.is_evaluation]⟩
  simp [surface_acpi_event_handler, acpi_has_method, SUR_METHOD_DSM, h]

theorem send_event_without_dsm_not_found_witness :
    env_ok.has_method [] (registry_with_handle 2).handle "_DSM" = false ∧
    surface_acpi_event_handler env_ok (registry_with_handle 2) [] SUR_BAT1_INFO_CHANGE =
      (AE_NOT_FOUND, [] ++ [Event.has_method 2 "_DSM" false]) :=
  ⟨by decide,
   (send_event_without_dsm_not_found env_ok (registry_with_handle 2) []
      SUR_BAT1_INFO_CHANGE (by decide)).1⟩

/-- C4: the request `send_event(e)` submits to `_DSM`, when it submits one, is the
four-argument list (identifier buffer, integer `SUR_QUERY_DEVICE = 0x00`, integer
`e`, package with `count = 0`); the selector `SURFACE_GEN_VERSION = 0x08` is only
stored in the `elements` pointer of the empty package, so the integer in the
revision position is `0x00` and not `0x08`. -/
theorem send_event_request_arguments (env : Env) (sa : surface_acpi_dev) (tr : List Event)
    (e : Nat) :
    ((surface_acpi_event_handler env sa tr e).2 =
        tr ++ [Event.has_method sa.handle "_DSM" false] ∨
      ∃ status, (surface_acpi_event_handler env sa tr e).2 =
        tr ++ [Event.has_method sa.handle "_DSM" true,
               Event.evaluate_object sa.handle "_DSM"
                 (some [acpi_object.buffer 37 SURFACE_EVENT_GUID, acpi_object.integer 0x00,
                        acpi_object.integer e, acpi_object.package 0 0x08]) status]) ∧
    acpi_object.integer 0x00 ≠ acpi_object.integer SURFACE_GEN_VERSION := by
  refine ⟨?_, by decide⟩
  obtain ⟨found, status, -, h⟩ := surface_acpi_event_handler_shape env sa tr e
  rw [h]
  cases found
  · left; rfl
  · right; exact ⟨status, rfl⟩

/-- C5, as stated, fails: in a run where `_DSM` is evaluated (event
`BAT1_INFO_CHANGE`, every call succeeding) the identifier buffer is submitted with
declared length `37`, not `16`. -/
theorem send_event_guid_length_not_16 :
    (surface_acpi_event_handler env_ok (registry_with_handle 1) [] SUR_BAT1_INFO_CHANGE).2 =
      [Event.has_method 1 "_DSM" true,
       Event.evaluate_object 1 "_DSM"
         (some [acpi_object.buffer 37 SURFACE_EVENT_GUID, acpi_object.integer 0,
                acpi_object.integer 4, acpi_object.package 0 8]) AE_OK] ∧
    (37 : Nat) ≠ 16 := by
  decide

/-- C5, amended: whenever `send_event` evaluates `_DSM`, for every event code, the
first argument is a byte buffer of declared length `37` whose content is the
36-character ASCII text `93b666c5-70c6-469f-a215-3d487c91ab3c` followed by one
NUL byte. -/
theorem send_event_guid_buffer (env : Env) (sa : surface_acpi_dev) (tr : List Event)
    (e : Nat) (h : acpi_handle) (name : String) (params : List acpi_object)
    (status : acpi_status)
    (hmem : Event.evaluate_object h name (some params) status ∈
      (surface_acpi_event_handler env sa tr e).2.drop tr.length) :
    params.head? = some (acpi_object.buffer 37
        ("93b666c5-70c6-469f-a215-3d487c91ab3c".toList.map Char.toNat ++ [0])) ∧
      ("93b666c5-70c6-469f-a215-3d487c91ab3c".toList.map Char.toNat ++ [0]).length = 37 ∧
      params.length = 4 := by
  obtain ⟨found, st, -, hs⟩ := surface_acpi_event_handler_shape env sa tr e
  rw [hs] at hmem
  simp only [List.drop_left] at hmem
  cases found
  · simp [send_event_footprint] at hmem
  · simp only [send_event_footprint, if_true, List.mem_cons, List.mem_singleton,
      List.not_mem_nil, or_false, reduceCtorEq, false_or, Event.evaluate_object.injEq,
      Option.some.injEq] at hmem
    obtain ⟨-, -, rfl, -⟩ := hmem
    exact ⟨rfl, rfl, rfl⟩

theorem send_event_guid_buffer_witness :
    Event.evaluate_object 1 "_DSM"
        (some [acpi_object.buffer 37 SURFACE_EVENT_GUID, acpi_object.integer 0,
          acpi_object.integer 4, acpi_object.package 0 8]) AE_OK ∈
      (surface_acpi_event_handler env_ok (registry_with_handle 1) []
        SUR_BAT1_INFO_CHANGE).2.drop ([] : List Event).length ∧
    ([acpi_object.buffer 37 SURFACE_EVENT_GUID, acpi_object.integer 0,
        acpi_object.integer 4, acpi_object.package 0 8].head? =
      some (acpi_object.buffer 37
        ("93b666c5-70c6-469f-a215-3d487c91ab3c".toList.map Char.toNat ++ [0])) ∧
      ("93b666c5-70c6-469f-a215-3d487c91ab3c".toList.map Char.toNat ++ [0]).length = 37 ∧
      [acpi_object.buffer 37 SURFACE_EVENT_GUID, acpi_object.integer 0,
        acpi_object.integer 4, acpi_object.package 0 8].length = 4) :=
  ⟨by decide,
   send_event_guid_buffer env_ok (registry_with_handle 1) [] SUR_BAT1_INFO_CHANGE 1 "_DSM"
    [acpi_object.buffer 37 SURFACE_EVENT_GUID, acpi_object.integer 0,
      acpi_object.integer 4, acpi_object.package 0 8] AE_OK (by decide)⟩

/-! ## The attach callback -/

theorem registry_available_iff (env : Env) (k : Kernel) :
    registry_available env k ↔ ¬ (k.surface_acpi = none ∧ env.kzalloc k.trace = false) := by
  unfold registry_available
  cases k.surface_acpi <;> cases env.kzalloc k.trace <;> simp

/-- C7: `surface_acpi_add` always returns; it returns a failure exactly when the
registry does not exist and `kzalloc` fails.  Then the code is `AE_NO_MEMORY`, the
registry is still absent, the published endpoints are unchanged, and the failed
`kzalloc` is the only boundary call (no probe, no evaluation).  In every other
case the code is `AE_OK`, whatever the firmware calls answer. -/
theorem attach_fails_only_without_memory (env : Env) (k : Kernel) (dev : acpi_device) :
    ∃ r k1, surface_acpi_add env k dev = some (r, k1) ∧
      (ACPI_FAILURE r = true ↔ (k.surface_acpi = none ∧ env.kzalloc k.trace = false)) ∧
      ((k.surface_acpi = none ∧ env.kzalloc k.trace = false) →
        r = AE_NO_MEMORY ∧ k1.surface_acpi = none ∧ k1.proc = k.proc ∧
          k1.trace = k.trace ++ [Event.kzalloc false]) ∧
      (¬ (k.surface_acpi = none ∧ env.kzalloc k.trace = false) → r = AE_OK) := by
  by_cases hav : registry_available env k
  · have hn := (registry_available_iff env k).1 hav
    have key : ∃ k1, surface_acpi_add env k dev = some (AE_OK, k1) := by
      cases hrole : role_probe env k dev
      · obtain ⟨w, sta, found, status, h, -⟩ := surface_acpi_add_ssh_shape env k dev hav hrole
        exact ⟨_, h⟩
      · obtain ⟨mid, h1, h2, f0, s0, f1, s1, f2, s2, f3, s3, f4, s4, f5, s5, o1, o2, o3, o4,
          proc1, h, -⟩ := surface_acpi_add_san_shape env k dev hav hrole
        exact ⟨_, h⟩
    obtain ⟨k1, hk1⟩ := key
    refine ⟨AE_OK, k1, hk1, ?_, fun h => absurd h hn, fun _ => rfl⟩
    simp [ACPI_FAILURE, AE_OK, hn]
  · have hn : k.surface_acpi = none ∧ env.kzalloc k.trace = false := by
      by_contra hc
      exact hav ((registry_available_iff env k).2 hc)
    refine ⟨AE_NO_MEMORY, _, surface_acpi_add_no_memory env k dev hn.1 hn.2, ?_,
      fun _ => ⟨rfl, hn.1, rfl, rfl⟩, fun h => absurd hn h⟩
    simp [ACPI_FAILURE, AE_NO_MEMORY, hn]

theorem attach_fails_only_without_memory_witness :
    (surface_acpi_add env_no_memory Kernel.init san_device).map Prod.fst = some AE_NO_MEMORY ∧
    (surface_acpi_add env_ok Kernel.init san_device).map Prod.fst = some AE_OK := by
  constructor
  · obtain ⟨r, k1, h, -, h2, -⟩ :=
      attach_fails_only_without_memory env_no_memory Kernel.init san_device
    rw [h, (h2 ⟨rfl, rfl⟩).1]; rfl
  · obtain ⟨r, k1, h, -, -, h3⟩ :=
      attach_fails_only_without_memory env_ok Kernel.init san_device
    rw [h, h3 (by decide)]; rfl

/-- C6: an attach that has a registry to work on (it exists, or its allocation
succeeds) and whose role probe finds no `_DSM` on the device returns `AE_OK` and
leaves the registry equal to the one it started from (the existing one, or the
zeroed new one) except for `ssh_dev`, which records the device: the three flags,
`san_dev` and `handle` are unchanged.  The published endpoints are unchanged and no
`proc_create_data` is called; the only call that concerns `_REG` or `_DSM` is the
role probe itself (no `register_availability`, no `send_event`); `_INI` is probed
once on the device and is evaluated, without arguments, exactly when that probe
found it; nothing else is evaluated with `acpi_evaluate_object`. -/
theorem ssh_attach_frame (env : Env) (k : Kernel) (dev : acpi_device)
    (hav : registry_available env k) (hrole : role_probe env k dev = false) :
    ∃ (evs : List Event) (found : Bool),
      surface_acpi_add env k dev =
        some (AE_OK,
          { surface_acpi := some { k.registry_or_new with ssh_dev := some dev },
            proc := k.proc,
            trace := k.trace ++ evs }) ∧
      (∀ e ∈ evs, e.is_proc_create = false) ∧
      (∀ e ∈ evs, e.is_protocol = true → e = Event.has_method dev.handle "_DSM" false) ∧
      Event.has_method dev.handle "_INI" found ∈ evs ∧
      (∀ f, Event.has_method dev.handle "_INI" f ∈ evs → f = found) ∧
      ((∃ st, Event.evaluate_object dev.handle "_INI" none st ∈ evs) ↔ found = true) ∧
      (∀ h name params st, Event.evaluate_object h name params st ∈ evs →
        h = dev.handle ∧ name = "_INI" ∧ params = none) := by
  obtain ⟨w, sta, found, status, h, hsta⟩ := surface_acpi_add_ssh_shape env k dev hav hrole
  refine ⟨alloc_events env k ++ [Event.has_method dev.handle "_DSM" false]
      ++ [Event.walk_namespace dev.handle w] ++ sta
      ++ (if found then
            [Event.has_method dev.handle "_INI" true,
             Event.evaluate_object dev.handle "_INI" none status]
          else [Event.has_method dev.handle "_INI" false]), found, ?_, ?_⟩
  · rw [h]; simp only [List.append_assoc]
  · have hal : ∀ e ∈ alloc_events env k, ∃ b, e = Event.kzalloc b := by
      intro e he
      unfold alloc_events at he
      cases hk : k.surface_acpi <;> simp [hk] at he
      exact ⟨_, he⟩
    have hcases : ∀ e ∈ alloc_events env k ++ [Event.has_method dev.handle "_DSM" false]
        ++ [Event.walk_namespace dev.handle w] ++ sta
        ++ (if found then
              [Event.has_method dev.handle "_INI" true,
               Event.evaluate_object dev.handle "_INI" none status]
            else [Event.has_method dev.handle "_INI" false]),
        (∃ b, e = Event.kzalloc b) ∨ e = Event.has_method dev.handle "_DSM" false ∨
        e = Event.walk_namespace dev.handle w ∨
        (∃ f, e = Event.has_method dev.handle "_STA" f) ∨
        (∃ st, e = Event.evaluate_integer dev.handle "_STA" st) ∨
        e = Event.has_method dev.handle "_INI" found ∨
        (found = true ∧ e = Event.evaluate_object dev.handle "_INI" none status) := by
      intro e he
      simp only [List.mem_append, List.mem_singleton] at he
      rcases he with (((he | he) | he) | he) | he
      · exact Or.inl (hal e he)
      · exact Or.inr (Or.inl he)
      · exact Or.inr (Or.inr (Or.inl he))
      · rcases hsta e he with hf | hs
        · exact Or.inr (Or.inr (Or.inr (Or.inl hf)))
        · exact Or.inr (Or.inr (Or.inr (Or.inr (Or.inl hs))))
      · rcases ini_events_cases dev.handle found status e he with h1 | h2
        · exact Or.inr (Or.inr (Or.inr (Or.inr (Or.inr (Or.inl h1)))))
        · exact Or.inr (Or.inr (Or.inr (Or.inr (Or.inr (Or.inr h2)))))
    refine ⟨?_, ?_, ?_, ?_, ?_, ?_⟩
    · intro e he
      rcases hcases e he with ⟨b, rfl⟩ | rfl | rfl | ⟨f, rfl⟩ | ⟨st, rfl⟩ | rfl | ⟨-, rfl⟩ <;> rfl
    · intro e he hp
      rcases hcases e he with ⟨b, rfl⟩ | rfl | rfl | ⟨f, rfl⟩ | ⟨st, rfl⟩ | rfl | ⟨-, rfl⟩ <;>
        first | rfl | (exact absurd hp (by simp [Event.is_protocol]))
    · cases found <;> simp
    · intro f hf
      rcases hcases _ hf with ⟨b, hb⟩ | hb | hb | ⟨f1, hb⟩ | ⟨st, hb⟩ | hb | ⟨-, hb⟩ <;>
        simp at hb
      exact hb
    · constructor
      · rintro ⟨st, hst⟩
        rcases hcases _ hst with ⟨b, hb⟩ | hb | hb | ⟨f1, hb⟩ | ⟨st, hb⟩ | hb | ⟨hf, hb⟩ <;>
          simp at hb
        exact hf
      · rintro rfl
        exact ⟨status, by simp⟩
    · intro h1 name params st hst
      rcases hcases _ hst with ⟨b, hb⟩ | hb | hb | ⟨f1, hb⟩ | ⟨st, hb⟩ | hb | ⟨hf, hb⟩ <;>
        simp at hb
      exact ⟨hb.1, hb.2.1, hb.2.2.1⟩

theorem ssh_attach_frame_witness :
    registry_available env_ok Kernel.init ∧ role_probe env_ok Kernel.init ssh_device = false ∧
    ∃ (evs : List Event) (found : Bool),
      surface_acpi_add env_ok Kernel.init ssh_device =
        some (AE_OK,
          { surface_acpi := some { Kernel.init.registry_or_new with ssh_dev := some ssh_device },
            proc := Kernel.init.proc,
            trace := Kernel.init.trace ++ evs }) ∧
      (∀ e ∈ evs, e.is_proc_create = false) ∧
      (∀ e ∈ evs, e.is_protocol = true → e = Event.has_method ssh_device.handle "_DSM" false) ∧
      Event.has_method ssh_device.handle "_INI" found ∈ evs ∧
      (∀ f, Event.has_method ssh_device.handle "_INI" f ∈ evs → f = found) ∧
      ((∃ st, Event.evaluate_object ssh_device.handle "_INI" none st ∈ evs) ↔ found = true) ∧
      (∀ h name params st, Event.evaluate_object h name params st ∈ evs →
        h = ssh_device.handle ∧ name = "_INI" ∧ params = none) :=
  ⟨Or.inr rfl, by decide,
   ssh_attach_frame env_ok Kernel.init ssh_device (Or.inr rfl) (by decide)⟩

theorem alloc_events_not_protocol (env : Env) (k : Kernel) :
    ∀ e ∈ alloc_events env k, e.is_protocol = false := by
  intro e he
  unfold alloc_events at he
  cases hk : k.surface_acpi <;> simp [hk] at he
  subst he; rfl

theorem alloc_events_registry (env : Env) (k : Kernel) (sa : surface_acpi_dev)
    (h : k.surface_acpi = some sa) : alloc_events env k = [] := by
  simp [alloc_events, h]

/-- C3: a notify-device attach (an attach that has a registry to work on and whose
role probe finds `_DSM`) returns `AE_OK`, and after the role probe the calls that
concern `_REG` or `_DSM` are exactly, in this order: one `register_availability`
(probe of `_REG` and, if found, its evaluation with the integers `0x09`, `0x01`),
then `send_event` for `0x01`, `0x09`, `0x04`, `0x08`, `0x06` (each a probe of
`_DSM` and, if found, its evaluation with that event code), whatever each call
answers: every one of the six calls is attempted for every outcome of the others. -/
theorem san_attach_protocol_calls (env : Env) (k : Kernel) (dev : acpi_device)
    (hav : registry_available env k) (hrole : role_probe env k dev = true) :
    ∃ (k1 : Kernel) (pre mid post : List Event) (f0 : Bool) (s0 : acpi_status)
      (f1 : Bool) (s1 : acpi_status) (f2 : Bool) (s2 : acpi_status)
      (f3 : Bool) (s3 : acpi_status) (f4 : Bool) (s4 : acpi_status)
      (f5 : Bool) (s5 : acpi_status),
      surface_acpi_add env k dev = some (AE_OK, k1) ∧
      k1.trace = k.trace ++ pre ++ [Event.has_method dev.handle "_DSM" true] ++ mid
        ++ reg_footprint dev.handle f0 s0
        ++ send_event_footprint dev.handle 0x01 f1 s1
        ++ send_event_footprint dev.handle 0x09 f2 s2
        ++ send_event_footprint dev.handle 0x04 f3 s3
        ++ send_event_footprint dev.handle 0x08 f4 s4
        ++ send_event_footprint dev.handle 0x06 f5 s5
        ++ post ∧
      (∀ e ∈ pre ++ mid ++ post, e.is_protocol = false) := by
  obtain ⟨mid, h1, h2, f0, s0, f1, s1, f2, s2, f3, s3, f4, s4, f5, s5, o1, o2, o3, o4,
    proc1, h, hmid⟩ := surface_acpi_add_san_shape env k dev hav hrole
  refine ⟨_, alloc_events env k, mid, _, f0, s0, f1, s1, f2, s2, f3, s3, f4, s4, f5, s5,
    h, rfl, ?_⟩
  intro e he
  simp only [List.mem_append, List.mem_cons, List.mem_singleton, List.not_mem_nil,
    or_false] at he
  rcases he with (he | he) | rfl | rfl | rfl | rfl
  · exact alloc_events_not_protocol env k e he
  · exact (hmid e he).1
  all_goals rfl

theorem san_attach_protocol_calls_witness :
    registry_available env_bat2_fails Kernel.init ∧
    role_probe env_bat2_fails Kernel.init san_device = true ∧
    ∃ (k1 : Kernel) (pre mid post : List Event) (f0 : Bool) (s0 : acpi_status)
      (f1 : Bool) (s1 : acpi_status) (f2 : Bool) (s2 : acpi_status)
      (f3 : Bool) (s3 : acpi_status) (f4 : Bool) (s4 : acpi_status)
      (f5 : Bool) (s5 : acpi_status),
      surface_acpi_add env_bat2_fails Kernel.init san_device = some (AE_OK, k1) ∧
      k1.trace = Kernel.init.trace ++ pre ++ [Event.has_method san_device.handle "_DSM" true]
        ++ mid
        ++ reg_footprint san_device.handle f0 s0
        ++ send_event_footprint san_device.handle 0x01 f1 s1
        ++ send_event_footprint san_device.handle 0x09 f2 s2
        ++ send_event_footprint san_device.handle 0x04 f3 s3
        ++ send_event_footprint san_device.handle 0x08 f4 s4
        ++ send_event_footprint san_device.handle 0x06 f5 s5
        ++ post ∧
      (∀ e ∈ pre ++ mid ++ post, e.is_protocol = false) :=
  ⟨Or.inr rfl, by decide,
   san_attach_protocol_calls env_bat2_fails Kernel.init san_device (Or.inr rfl) (by decide)⟩

theorem mem_send_event_footprint (h h1 : acpi_handle) (e e1 : Nat) (f : Bool)
    (s st : acpi_status) :
    Event.evaluate_object h "_DSM" (some (event_handler_in_objs e)) st ∈
        send_event_footprint h1 e1 f s ↔
      (f = true ∧ h = h1 ∧ e = e1 ∧ st = s) := by
  cases f <;> simp [send_event_footprint, event_handler_in_objs]

theorem not_mem_reg_footprint (h h1 : acpi_handle) (p : Option (List acpi_object)) (f : Bool)
    (s st : acpi_status) :
    Event.evaluate_object h "_DSM" p st ∉ reg_footprint h1 f s := by
  cases f <;> simp [reg_footprint]

theorem ae_ok_eq_iff (s : acpi_status) : AE_OK = s ↔ s = 0 := by
  unfold AE_OK; exact eq_comm

theorem send_event_ok_iff (f : Bool) (s : acpi_status) :
    send_event_ok f s = true ↔ (f = true ∧ s = 0) := by
  simp [send_event_ok]

/-- A `send_event` call returns success exactly when its `_DSM` evaluation appears
in the calls it made with the answer `AE_OK`. -/
theorem send_event_success_iff (env : Env) (sa : surface_acpi_dev) (tr : List Event)
    (e : Nat) :
    ACPI_SUCCESS (surface_acpi_event_handler env sa tr e).1 = true ↔
      Event.evaluate_object sa.handle "_DSM" (some (event_handler_in_objs e)) AE_OK ∈
        (surface_acpi_event_handler env sa tr e).2.drop tr.length := by
  obtain ⟨f, s, -, h⟩ := surface_acpi_event_handler_shape env sa tr e
  rw [h]
  simp only [List.drop_left, mem_send_event_footprint]
  cases f <;> by_cases hs : s = 0
  · simp [send_event_code, ACPI_SUCCESS, AE_NOT_FOUND]
  · simp [send_event_code, ACPI_SUCCESS, AE_NOT_FOUND]
  · simp [send_event_code, ACPI_SUCCESS, AE_OK, hs]
  · have hs1 : ¬ (0 = s) := fun h0 => hs h0.symm
    simp [send_event_code, ACPI_SUCCESS, AE_OK, AE_ERROR, hs, hs1]

/-- C2: in a notify-device attach that starts from a registry with all three flags
unset (a newly allocated one in particular), for every behaviour of the firmware:
after the attach `bat1_attached` is true exactly when the `send_event` for
`BAT1_INFO_CHANGE` succeeded, `bat2_attached` exactly when the one for
`BAT2_INFO_CHANGE` succeeded, and `psu_registered` exactly when the one for
`PSU_INFO_CHANGE` succeeded.  A `send_event(e)` call succeeds exactly when the
calls it made contain the evaluation of `_DSM` with the request for `e` answered
`AE_OK` (first conjunct); the flags are stated against the calls of the attach. -/
theorem san_attach_flags (env : Env) (k : Kernel) (dev : acpi_device)
    (hav : registry_available env k) (hrole : role_probe env k dev = true)
    (hflags : k.registry_or_new.flags = (false, false, false)) :
    (∀ (sa : surface_acpi_dev) (tr : List Event) (e : Nat),
      ACPI_SUCCESS (surface_acpi_event_handler env sa tr e).1 = true ↔
        Event.evaluate_object sa.handle "_DSM" (some (event_handler_in_objs e)) AE_OK ∈
          (surface_acpi_event_handler env sa tr e).2.drop tr.length) ∧
    ∃ (sa : surface_acpi_dev) (proc1 : List String) (evs : List Event),
      surface_acpi_add env k dev =
        some (AE_OK, { surface_acpi := some sa, proc := proc1, trace := k.trace ++ evs }) ∧
      sa.handle = dev.handle ∧
      (sa.bat1_attached = true ↔
        Event.evaluate_object dev.handle "_DSM"
          (some (event_handler_in_objs SUR_BAT1_INFO_CHANGE)) AE_OK ∈ evs) ∧
      (sa.bat2_attached = true ↔
        Event.evaluate_object dev.handle "_DSM"
          (some (event_handler_in_objs SUR_BAT2_INFO_CHANGE)) AE_OK ∈ evs) ∧
      (sa.psu_registered = true ↔
        Event.evaluate_object dev.handle "_DSM"
          (some (event_handler_in_objs SUR_PSU_INFO_CHANGE)) AE_OK ∈ evs) := by
  refine ⟨send_event_success_iff env, ?_⟩
  obtain ⟨mid, h1, h2, f0, s0, f1, s1, f2, s2, f3, s3, f4, s4, f5, s5, o1, o2, o3, o4,
    proc1, h, hmid⟩ := surface_acpi_add_san_shape env k dev hav hrole
  simp only [surface_acpi_dev.flags, Prod.mk.injEq] at hflags
  obtain ⟨hb1, hb2, hb3⟩ := hflags
  have key : ∀ e : Nat,
      Event.evaluate_object dev.handle "_DSM" (some (event_handler_in_objs e)) AE_OK ∈
        alloc_events env k ++ [Event.has_method dev.handle "_DSM" true] ++ mid
          ++ reg_footprint dev.handle f0 s0
          ++ send_event_footprint dev.handle 0x01 f1 s1
          ++ send_event_footprint dev.handle 0x09 f2 s2
          ++ send_event_footprint dev.handle 0x04 f3 s3
          ++ send_event_footprint dev.handle 0x08 f4 s4
          ++ send_event_footprint dev.handle 0x06 f5 s5
          ++ [Event.proc_create_data "BAT1" o1, Event.proc_create_data "BAT2" o2,
              Event.proc_create_data "ADP1" o3, Event.proc_create_data "version" o4] ↔
      (e = 0x01 ∧ send_event_ok f1 s1 = true) ∨ (e = 0x09 ∧ send_event_ok f2 s2 = true) ∨
      (e = 0x04 ∧ send_event_ok f3 s3 = true) ∨ (e = 0x08 ∧ send_event_ok f4 s4 = true) ∨
      (e = 0x06 ∧ send_event_ok f5 s5 = true) := by
    intro e
    have hnal : Event.evaluate_object dev.handle "_DSM" (some (event_handler_in_objs e)) AE_OK
        ∉ alloc_events env k := fun hm => by
      have := alloc_events_not_protocol env k _ hm
      simp [Event.is_protocol] at this
    have hnmid : Event.evaluate_object dev.handle "_DSM" (some (event_handler_in_objs e)) AE_OK
        ∉ mid := fun hm => by
      have := (hmid _ hm).1
      simp [Event.is_protocol] at this
    simp only [List.mem_append, mem_send_event_footprint, hnal, hnmid, not_mem_reg_footprint,
      List.mem_cons, List.mem_singleton, List.not_mem_nil, reduceCtorEq, or_false, false_or,
      send_event_ok_iff, ae_ok_eq_iff, true_and]
    constructor
    · rintro ((((⟨a, b, c⟩ | ⟨a, b, c⟩) | ⟨a, b, c⟩) | ⟨a, b, c⟩) | ⟨a, b, c⟩)
      · exact Or.inl ⟨b, a, c⟩
      · exact Or.inr (Or.inl ⟨b, a, c⟩)
      · exact Or.inr (Or.inr (Or.inl ⟨b, a, c⟩))
      · exact Or.inr (Or.inr (Or.inr (Or.inl ⟨b, a, c⟩)))
      · exact Or.inr (Or.inr (Or.inr (Or.inr ⟨b, a, c⟩)))
    · rintro (⟨a, b, c⟩ | ⟨a, b, c⟩ | ⟨a, b, c⟩ | ⟨a, b, c⟩ | ⟨a, b, c⟩)
      · exact Or.inl (Or.inl (Or.inl (Or.inl ⟨b, a, c⟩)))
      · exact Or.inl (Or.inl (Or.inl (Or.inr ⟨b, a, c⟩)))
      · exact Or.inl (Or.inl (Or.inr ⟨b, a, c⟩))
      · exact Or.inl (Or.inr ⟨b, a, c⟩)
      · exact Or.inr ⟨b, a, c⟩
  refine ⟨{ k.registry_or_new with
      san_dev := some dev, handle := dev.handle,
      rqst_handle := h1, rqsx_handle := h2,
      bat1_attached := k.registry_or_new.bat1_attached || send_event_ok f3 s3,
      bat2_attached := k.registry_or_new.bat2_attached || send_event_ok f4 s4,
      psu_registered := k.registry_or_new.psu_registered || send_event_ok f5 s5 }, proc1,
    alloc_events env k ++ [Event.has_method dev.handle "_DSM" true] ++ mid
          ++ reg_footprint dev.handle f0 s0
          ++ send_event_footprint dev.handle 0x01 f1 s1
          ++ send_event_footprint dev.handle 0x09 f2 s2
          ++ send_event_footprint dev.handle 0x04 f3 s3
          ++ send_event_footprint dev.handle 0x08 f4 s4
          ++ send_event_footprint dev.handle 0x06 f5 s5
          ++ [Event.proc_create_data "BAT1" o1, Event.proc_create_data "BAT2" o2,
              Event.proc_create_data "ADP1" o3, Event.proc_create_data "version" o4],
    ?_, rfl, ?_, ?_, ?_⟩
  · rw [h]; simp only [List.append_assoc]
  · rw [key SUR_BAT1_INFO_CHANGE]; simp [hb1, SUR_BAT1_INFO_CHANGE]
  · rw [key SUR_BAT2_INFO_CHANGE]; simp [hb2, SUR_BAT2_INFO_CHANGE]
  · rw [key SUR_PSU_INFO_CHANGE]; simp [hb3, SUR_PSU_INFO_CHANGE]

theorem san_attach_flags_witness :
    (registry_available env_bat2_fails Kernel.init ∧
     role_probe env_bat2_fails Kernel.init san_device = true ∧
     Kernel.init.registry_or_new.flags = (false, false, false)) ∧
    (surface_acpi_add env_bat2_fails Kernel.init san_device).map
        (fun r => r.2.surface_acpi.map surface_acpi_dev.flags) =
      some (some (true, false, true)) ∧
    (surface_acpi_add env_ok Kernel.init san_device).map
        (fun r => r.2.surface_acpi.map surface_acpi_dev.flags) =
      some (some (true, true, true)) ∧
    ∃ (sa : surface_acpi_dev) (proc1 : List String) (evs : List Event),
      surface_acpi_add env_bat2_fails Kernel.init san_device =
        some (AE_OK,
          { surface_acpi := some sa, proc := proc1, trace := Kernel.init.trace ++ evs }) ∧
      sa.handle = san_device.handle ∧
      (sa.bat1_attached = true ↔
        Event.evaluate_object san_device.handle "_DSM"
          (some (event_handler_in_objs SUR_BAT1_INFO_CHANGE)) AE_OK ∈ evs) ∧
      (sa.bat2_attached = true ↔
        Event.evaluate_object san_device.handle "_DSM"
          (some (event_handler_in_objs SUR_BAT2_INFO_CHANGE)) AE_OK ∈ evs) ∧
      (sa.psu_registered = true ↔
        Event.evaluate_object san_device.handle "_DSM"
          (some (event_handler_in_objs SUR_PSU_INFO_CHANGE)) AE_OK ∈ evs) :=
  ⟨⟨Or.inr rfl, by decide, by decide⟩, by decide, by decide,
   (san_attach_flags env_bat2_fails Kernel.init san_device (Or.inr rfl) (by decide)
      (by decide)).2⟩

/-! ## Reuse of the registry, removal, and reachable states -/

theorem flags_kept_refl (a : surface_acpi_dev) : flags_kept a a :=
  ⟨id, id, id⟩

theorem flags_kept_trans {a b c : surface_acpi_dev} (h1 : flags_kept a b)
    (h2 : flags_kept b c) : flags_kept a c :=
  ⟨fun h => h2.1 (h1.1 h), fun h => h2.2.1 (h1.2.1 h), fun h => h2.2.2 (h1.2.2 h)⟩

theorem reg_footprint_not_kzalloc (h : acpi_handle) (f : Bool) (s : acpi_status) :
    ∀ e ∈ reg_footprint h f s, e.is_kzalloc = false := by
  cases f <;> simp [reg_footprint, Event.is_kzalloc]

theorem send_event_footprint_not_kzalloc (h : acpi_handle) (ev : Nat) (f : Bool)
    (s : acpi_status) :
    ∀ e ∈ send_event_footprint h ev f s, e.is_kzalloc = false := by
  cases f <;> simp [send_event_footprint, Event.is_kzalloc]

/-- An attach on an existing registry: what it keeps. -/
theorem surface_acpi_add_existing (env : Env) (k : Kernel) (dev : acpi_device)
    (sa : surface_acpi_dev) (h : k.surface_acpi = some sa) :
    ∃ (k1 : Kernel) (sa1 : surface_acpi_dev) (evs : List Event),
      surface_acpi_add env k dev = some (AE_OK, k1) ∧
      k1.surface_acpi = some sa1 ∧ k1.trace = k.trace ++ evs ∧
      (∀ e ∈ evs, e.is_kzalloc = false) ∧
      flags_kept sa sa1 ∧
      (env.has_method k.trace dev.handle "_DSM" = true →
        sa1.ssh_dev = sa.ssh_dev ∧ sa1.san_dev = some dev ∧ sa1.handle = dev.handle) ∧
      (env.has_method k.trace dev.handle "_DSM" = false →
        sa1.san_dev = sa.san_dev ∧ sa1.handle = sa.handle ∧
        sa1.rqst_handle = sa.rqst_handle ∧ sa1.rqsx_handle = sa.rqsx_handle ∧
        sa1.flags = sa.flags ∧ sa1.ssh_dev = some dev) ∧
      (sa1.bat1_dev = sa.bat1_dev ∧ sa1.bat2_dev = sa.bat2_dev ∧ sa1.psu_dev = sa.psu_dev) := by
  have hav : registry_available env k := Or.inl (by simp [h])
  have hal : alloc_events env k = [] := alloc_events_registry env k sa h
  have hreg : k.registry_or_new = sa := by simp [Kernel.registry_or_new, h]
  have hrp : role_probe env k dev = env.has_method k.trace dev.handle "_DSM" := by
    simp [role_probe, hal, SUR_METHOD_DSM]
  cases hrole : role_probe env k dev
  · obtain ⟨w, sta, found, status, hadd, hsta⟩ :=
      surface_acpi_add_ssh_shape env k dev hav hrole
    rw [hal, hreg] at hadd
    rw [hrole] at hrp
    refine ⟨_, _, [] ++ [Event.has_method dev.handle "_DSM" false]
        ++ [Event.walk_namespace dev.handle w] ++ sta
        ++ (if found = true then
              [Event.has_method dev.handle "_INI" true,
               Event.evaluate_object dev.handle "_INI" none status]
            else [Event.has_method dev.handle "_INI" false]),
      hadd, rfl, by simp only [List.append_assoc], ?_,
      ⟨id, id, id⟩, ?_, fun _ => ⟨rfl, rfl, rfl, rfl, rfl, rfl⟩, rfl, rfl, rfl⟩
    · intro e he
      simp only [List.nil_append, List.mem_append, List.mem_cons, List.mem_singleton,
        List.not_mem_nil, or_false, or_assoc] at he
      rcases he with rfl | rfl | he | he
      · rfl
      · rfl
      · rcases hsta e he with ⟨f, rfl⟩ | ⟨st, rfl⟩ <;> rfl
      · rcases ini_events_cases dev.handle found status e he with rfl | ⟨-, rfl⟩ <;> rfl
    · intro hc
      rw [← hrp] at hc
      exact absurd hc (by simp)
  · obtain ⟨mid, h1, h2, f0, s0, f1, s1, f2, s2, f3, s3, f4, s4, f5, s5, o1, o2, o3, o4,
      proc1, hadd, hmid⟩ := surface_acpi_add_san_shape env k dev hav hrole
    rw [hal, hreg] at hadd
    rw [hrole] at hrp
    refine ⟨_, _, [] ++ [Event.has_method dev.handle "_DSM" true] ++ mid
        ++ reg_footprint dev.handle f0 s0
        ++ send_event_footprint dev.handle 0x01 f1 s1
        ++ send_event_footprint dev.handle 0x09 f2 s2
        ++ send_event_footprint dev.handle 0x04 f3 s3
        ++ send_event_footprint dev.handle 0x08 f4 s4
        ++ send_event_footprint dev.handle 0x06 f5 s5
        ++ [Event.proc_create_data "BAT1" o1, Event.proc_create_data "BAT2" o2,
            Event.proc_create_data "ADP1" o3, Event.proc_create_data "version" o4],
      hadd, rfl, by simp only [List.append_assoc], ?_,
      ?_, fun _ => ⟨rfl, rfl, rfl⟩, ?_, rfl, rfl, rfl⟩
    · intro e he
      simp only [List.nil_append, List.mem_append, List.mem_cons, List.mem_singleton,
        List.not_mem_nil, or_false, or_assoc] at he
      rcases he with rfl | he | he | he | he | he | he | he | rfl | rfl | rfl | rfl
      · rfl
      · exact (hmid e he).2.2
      · exact reg_footprint_not_kzalloc _ _ _ e he
      · exact send_event_footprint_not_kzalloc _ _ _ _ e he
      · exact send_event_footprint_not_kzalloc _ _ _ _ e he
      · exact send_event_footprint_not_kzalloc _ _ _ _ e he
      · exact send_event_footprint_not_kzalloc _ _ _ _ e he
      · exact send_event_footprint_not_kzalloc _ _ _ _ e he
      all_goals rfl
    · refine ⟨fun hb => ?_, fun hb => ?_, fun hb => ?_⟩ <;> simp [hb]
    · intro hc
      rw [← hrp] at hc
      exact absurd hc (by simp)

/-- Every callback keeps an existing registry and the flags set in it. -/
theorem step_keeps_flags (env : Env) (k : Kernel) (cb : Callback) (sa : surface_acpi_dev)
    (h : k.surface_acpi = some sa) :
    ∃ (k1 : Kernel) (sa1 : surface_acpi_dev),
      step env k cb = some k1 ∧ k1.surface_acpi = some sa1 ∧ flags_kept sa sa1 := by
  cases cb with
  | add dev =>
    obtain ⟨k1, sa1, evs, hadd, hreg, -, -, hk, -⟩ := surface_acpi_add_existing env k dev sa h
    exact ⟨k1, sa1, by simp [step, hadd], hreg, hk⟩
  | remove dev => exact ⟨_, sa, rfl, h, flags_kept_refl sa⟩
  | notify dev event => exact ⟨_, sa, rfl, h, flags_kept_refl sa⟩

theorem run_keeps_flags (env : Env) (cbs : List Callback) :
    ∀ (k : Kernel) (sa : surface_acpi_dev), k.surface_acpi = some sa →
      ∃ (k1 : Kernel) (sa1 : surface_acpi_dev),
        run env k cbs = some k1 ∧ k1.surface_acpi = some sa1 ∧ flags_kept sa sa1 := by
  induction cbs with
  | nil => intro k sa h; exact ⟨k, sa, rfl, h, flags_kept_refl sa⟩
  | cons cb cbs ih =>
    intro k sa h
    obtain ⟨k1, sa1, hs, hr, hk⟩ := step_keeps_flags env k cb sa h
    obtain ⟨k2, sa2, hs2, hr2, hk2⟩ := ih k1 sa1 hr
    exact ⟨k2, sa2, by simp [run, hs, hs2], hr2, flags_kept_trans hk hk2⟩

/-- C8: an attach performed while the registry exists returns `AE_OK`, calls no
`kzalloc`, and leaves a registry in which every flag that was set is still set
(whatever the `send_event` calls of this attach answer), in which the device
pointers `bat1_dev`, `bat2_dev`, `psu_dev` are unchanged and in which the other
role's record is unchanged: a notify-device attach keeps `ssh_dev`, an
embedded-controller attach keeps `san_dev`, `handle` and all three flags.
Consequently, after any sequence of attach, remove and notify callbacks the
registry still exists and every flag that was set is still set. -/
theorem registry_reused_flags_kept (env : Env) (k : Kernel) (dev : acpi_device)
    (cbs : List Callback) (sa : surface_acpi_dev) (h : k.surface_acpi = some sa) :
    (∃ (k1 : Kernel) (sa1 : surface_acpi_dev) (evs : List Event),
      surface_acpi_add env k dev = some (AE_OK, k1) ∧
      k1.surface_acpi = some sa1 ∧ k1.trace = k.trace ++ evs ∧
      (∀ e ∈ evs, e.is_kzalloc = false) ∧
      flags_kept sa sa1 ∧
      (env.has_method k.trace dev.handle "_DSM" = true →
        sa1.ssh_dev = sa.ssh_dev ∧ sa1.san_dev = some dev ∧ sa1.handle = dev.handle) ∧
      (env.has_method k.trace dev.handle "_DSM" = false →
        sa1.san_dev = sa.san_dev ∧ sa1.handle = sa.handle ∧
        sa1.rqst_handle = sa.rqst_handle ∧ sa1.rqsx_handle = sa.rqsx_handle ∧
        sa1.flags = sa.flags ∧ sa1.ssh_dev = some dev) ∧
      (sa1.bat1_dev = sa.bat1_dev ∧ sa1.bat2_dev = sa.bat2_dev ∧ sa1.psu_dev = sa.psu_dev)) ∧
    (∃ (k2 : Kernel) (sa2 : surface_acpi_dev),
      run env k cbs = some k2 ∧ k2.surface_acpi = some sa2 ∧ flags_kept sa sa2) :=
  ⟨surface_acpi_add_existing env k dev sa h, run_keeps_flags env cbs k sa h⟩

/-- C9: `surface_acpi_remove` returns `AE_OK` and leaves none of `BAT1`, `BAT2`,
`ADP1`, `version` published, whatever was published before (all, some or none of
them); it publishes nothing and does not touch the registry; a second removal
returns `AE_OK` again and leaves the published names and the registry as the
first one left them. -/
theorem remove_unpublishes_all (k : Kernel) (dev dev1 : acpi_device) :
    (surface_acpi_remove k dev).1 = AE_OK ∧
    "BAT1" ∉ (surface_acpi_remove k dev).2.proc ∧
    "BAT2" ∉ (surface_acpi_remove k dev).2.proc ∧
    "ADP1" ∉ (surface_acpi_remove k dev).2.proc ∧
    "version" ∉ (surface_acpi_remove k dev).2.proc ∧
    (∀ n ∈ (surface_acpi_remove k dev).2.proc, n ∈ k.proc) ∧
    (surface_acpi_remove k dev).2.surface_acpi = k.surface_acpi ∧
    (surface_acpi_remove (surface_acpi_remove k dev).2 dev1).1 = AE_OK ∧
    (surface_acpi_remove (surface_acpi_remove k dev).2 dev1).2.proc =
      (surface_acpi_remove k dev).2.proc ∧
    (surface_acpi_remove (surface_acpi_remove k dev).2 dev1).2.surface_acpi =
      (surface_acpi_remove k dev).2.surface_acpi := by
  refine ⟨rfl, ?_, ?_, ?_, ?_, ?_, rfl, rfl, ?_, rfl⟩
  · simp [surface_acpi_remove, remove_surface_proc_entries, remove_proc_entry, List.mem_filter]
  · simp [surface_acpi_remove, remove_surface_proc_entries, remove_proc_entry, List.mem_filter]
  · simp [surface_acpi_remove, remove_surface_proc_entries, remove_proc_entry, List.mem_filter]
  · simp [surface_acpi_remove, remove_surface_proc_entries, remove_proc_entry, List.mem_filter]
  · intro n hn
    simp [surface_acpi_remove, remove_surface_proc_entries, remove_proc_entry,
      List.mem_filter] at hn
    exact hn.1
  · simp only [surface_acpi_remove, remove_surface_proc_entries, remove_proc_entry,
      List.filter_filter]
    apply List.filter_congr
    intro a _
    cases (a != "version") <;> cases (a != "ADP1") <;> cases (a != "BAT2") <;>
      cases (a != "BAT1") <;> rfl

theorem remove_unpublishes_all_witness :
    (surface_acpi_remove { surface_acpi := none, proc := ["BAT1", "version"], trace := [] }
      san_device).2.proc = [] ∧
    "BAT1" ∉ (surface_acpi_remove Kernel.init ssh_device).2.proc :=
  ⟨by decide, (remove_unpublishes_all Kernel.init ssh_device ssh_device).2.1⟩

/-- A published name is there only if the registry is. -/
theorem step_keeps_published (env : Env) (k : Kernel) (cb : Callback)
    (hinv : k.proc ≠ [] → k.surface_acpi ≠ none) :
    ∃ k1, step env k cb = some k1 ∧ (k1.proc ≠ [] → k1.surface_acpi ≠ none) := by
  cases cb with
  | add dev =>
    by_cases hav : registry_available env k
    · cases hrole : role_probe env k dev
      · obtain ⟨w, sta, found, status, hadd, -⟩ :=
          surface_acpi_add_ssh_shape env k dev hav hrole
        exact ⟨_, by simp only [step, hadd]; rfl, fun _ => by simp⟩
      · obtain ⟨mid, h1, h2, f0, s0, f1, s1, f2, s2, f3, s3, f4, s4, f5, s5, o1, o2, o3, o4,
          proc1, hadd, -⟩ := surface_acpi_add_san_shape env k dev hav hrole
        exact ⟨_, by simp only [step, hadd]; rfl, fun _ => by simp⟩
    · have hn : k.surface_acpi = none ∧ env.kzalloc k.trace = false := by
        by_contra hc
        exact hav ((registry_available_iff env k).2 hc)
      refine ⟨_, by simp only [step, surface_acpi_add_no_memory env k dev hn.1 hn.2]; rfl, ?_⟩
      exact hinv
  | remove dev =>
    refine ⟨_, rfl, ?_⟩
    intro hp
    apply hinv
    intro hnil
    apply hp
    simp [surface_acpi_remove, remove_surface_proc_entries, remove_proc_entry, hnil]
  | notify dev event => exact ⟨_, rfl, hinv⟩

theorem run_keeps_published (env : Env) (cbs : List Callback) :
    ∀ k : Kernel, (k.proc ≠ [] → k.surface_acpi ≠ none) →
      ∃ k1, run env k cbs = some k1 ∧ (k1.proc ≠ [] → k1.surface_acpi ≠ none) := by
  induction cbs with
  | nil => intro k h; exact ⟨k, rfl, h⟩
  | cons cb cbs ih =>
    intro k h
    obtain ⟨k1, hs, h1⟩ := step_keeps_published env k cb h
    obtain ⟨k2, hs2, h2⟩ := ih k1 h1
    exact ⟨k2, by simp [run, hs, hs2], h2⟩

/-- C10: every sequence of attach, remove and notify callbacks run from the state
after module load, under any firmware and allocator behaviour, ends in a state
(no callback dereferences `NULL`) in which, if `BAT1`, `BAT2` or `ADP1` is
published, the registry exists, so that the read handlers of the three endpoints
return their line instead of dereferencing a `NULL` `surface_acpi`. -/
theorem published_endpoint_has_registry (env : Env) (cbs : List Callback) :
    ∃ k, run env Kernel.init cbs = some k ∧
      (registry_endpoint_published k →
        k.surface_acpi ≠ none ∧ bat1_proc_show k ≠ none ∧ bat2_proc_show k ≠ none ∧
          psu_proc_show k ≠ none) := by
  obtain ⟨k, hrun, hinv⟩ := run_keeps_published env cbs Kernel.init (fun h => absurd rfl h)
  refine ⟨k, hrun, fun hpub => ?_⟩
  have hne : k.proc ≠ [] := by
    intro hnil
    simp [registry_endpoint_published, hnil] at hpub
  have hreg := hinv hne
  cases hk : k.surface_acpi with
  | none => exact absurd hk hreg
  | some sa => simp [bat1_proc_show, bat2_proc_show, psu_proc_show, hk]

theorem published_endpoint_has_registry_witness :
    (run env_ok Kernel.init [Callback.add ssh_device, Callback.add san_device,
        Callback.notify san_device 4]).map
      (fun k => (k.proc, bat1_proc_show k)) =
      some (["BAT1", "BAT2", "ADP1", "version"], some "attached: 1\n") ∧
    ∃ k, run env_no_memory Kernel.init [Callback.add san_device, Callback.remove san_device]
        = some k ∧
      (registry_endpoint_published k →
        k.surface_acpi ≠ none ∧ bat1_proc_show k ≠ none ∧ bat2_proc_show k ≠ none ∧
          psu_proc_show k ≠ none) :=
  ⟨by decide,
   published_endpoint_has_registry env_no_memory
     [Callback.add san_device, Callback.remove san_device]⟩

theorem registry_reused_flags_kept_witness :
    (run env_ok Kernel.init [Callback.add san_device]).map
        (fun k => k.surface_acpi.map surface_acpi_dev.flags) = some (some (true, true, true)) ∧
    ∃ (k2 : Kernel) (sa2 : surface_acpi_dev),
      run env_bat2_fails
          { surface_acpi := some { surface_acpi_dev.zeroed with bat2_attached := true },
            proc := [], trace := [] }
          [Callback.add san_device, Callback.remove san_device, Callback.add ssh_device]
        = some k2 ∧
      k2.surface_acpi = some sa2 ∧
      flags_kept { surface_acpi_dev.zeroed with bat2_attached := true } sa2 :=
  ⟨by decide,
   (registry_reused_flags_kept env_bat2_fails
      { surface_acpi := some { surface_acpi_dev.zeroed with bat2_attached := true },
        proc := [], trace := [] }
      san_device
      [Callback.add san_device, Callback.remove san_device, Callback.add ssh_device]
      { surface_acpi_dev.zeroed with bat2_attached := true } rfl).2⟩

end SurfaceAcpi
